import Mathlib

/-!
Verification of the SignSync Meet backend (Python) against its
natural-language specification, via a shallow embedding in Lean 4.

Embedded modules:
* `src/backend/ai_services/sign_recognition.py` (SignLanguageRecognizer)
* `src/backend/ai_services/voice_recognition.py` (VoiceRecognizer)
* `src/backend/ai_services/caption_service.py` (CaptionService)
* `src/backend/main.py` (ConnectionManager)

Machine strings are Lean `String`s, Python lists are Lean `List`s, Python
dicts (with insertion order) are association lists, Python floats that only
occur as inert literals (0.7, 0.95, 0.5) are exact rationals (`Rat`), and
mutation of `self` state is explicit state passing.
-/

/-! ## Python value equality (needed for `sign_recognition.py` line 227)

`sequence_matches_pattern` compares a `str` slice with a `list` via `==`.
In Python, `==` between a `str` and a `list` falls back to identity after
both `__eq__` methods return `NotImplemented`, and two objects of distinct
types are never identical, so the comparison is always `False`.  `PyVal`
records the two Python types that appear at that comparison site. -/

inductive PyVal where
  | pstr : String → PyVal
  | plist : List String → PyVal
deriving DecidableEq, Repr

/-- Python `==` on `PyVal`: structural equality within a type, and always
`false` across the `str` / `list` type boundary. -/
def pyEq : PyVal → PyVal → Bool
  | .pstr a, .pstr b => a == b
  | .plist a, .plist b => a == b
  | _, _ => false

/-- Python string slicing `s[a:b]` for `0 ≤ a ≤ b` (indices clamp). -/
def pySlice (s : String) (a b : Nat) : String :=
  String.mk ((s.data.drop a).take (b - a))

/-! ## SignLanguageRecognizer (`sign_recognition.py`) -/

/-- `self.asl_alphabet` (lines 26-30): class index to ASL symbol. -/
def asl_alphabet : List (Nat × String) :=
  [(0, "A"), (1, "B"), (2, "C"), (3, "D"), (4, "E"), (5, "F"), (6, "G"),
   (7, "H"), (8, "I"), (9, "J"), (10, "K"), (11, "L"), (12, "M"), (13, "N"),
   (14, "O"), (15, "P"), (16, "Q"), (17, "R"), (18, "S"), (19, "T"),
   (20, "U"), (21, "V"), (22, "W"), (23, "X"), (24, "Y"), (25, "Z"),
   (26, "SPACE"), (27, "DELETE"), (28, "NOTHING")]

/-- `self.asl_alphabet.get(predicted_class, 'UNKNOWN')` (line 171). -/
def aslGet (k : Nat) : String :=
  (((asl_alphabet.find? (fun p => p.1 == k))).map (fun p => p.2)).getD "UNKNOWN"

/-- `self.common_phrases` (lines 33-46): phrase name to symbol pattern,
in dict insertion order.  The pattern entries are one-character Python
strings, kept here as `String`s exactly as in the source. -/
def common_phrases : List (String × List String) :=
  [("HELLO", ["H", "E", "L", "L", "O"]),
   ("THANK YOU", ["T", "H", "A", "N", "K", " ", "Y", "O", "U"]),
   ("YES", ["Y", "E", "S"]),
   ("NO", ["N", "O"]),
   ("PLEASE", ["P", "L", "E", "A", "S", "E"]),
   ("SORRY", ["S", "O", "R", "R", "Y"]),
   ("GOOD", ["G", "O", "O", "D"]),
   ("BAD", ["B", "A", "D"]),
   ("HELP", ["H", "E", "L", "P"]),
   ("WATER", ["W", "A", "T", "E", "R"]),
   ("FOOD", ["F", "O", "O", "D"]),
   ("HOME", ["H", "O", "M", "E"])]

/-- `self.max_sequence_length` (line 49). -/
def max_sequence_length : Nat := 10

/-- `update_sequence_buffer` (lines 189-197): append the sign, then keep
only the last `max_sequence_length` entries (`lst[-10:]`). -/
def update_sequence_buffer (buf : List String) (sign : String) : List String :=
  let b := buf ++ [sign]
  if max_sequence_length < b.length then b.drop (b.length - max_sequence_length) else b

/-- `sequence_matches_pattern` (lines 218-230): scan every window of the
joined buffer string and compare the `str` slice with the `list` pattern
using Python `==` (`pyEq`).  `len(sequence)` is the character count of the
joined string; `len(pattern)` is the element count of the pattern list. -/
def sequence_matches_pattern (sequence : String) (pattern : List String) : Bool :=
  if sequence.length < pattern.length then false
  else
    (List.range (sequence.length - pattern.length + 1)).any fun i =>
      pyEq (.pstr (pySlice sequence i (i + pattern.length))) (.plist pattern)

/-- `recognize_phrase` (lines 199-216): skip buffers shorter than 3
symbols; otherwise join the buffer, try each dictionary pattern in
insertion order, and on the first match clear the buffer and return the
phrase.  Returns (phrase result, buffer after the call). -/
def recognize_phrase (buf : List String) : Option String × List String :=
  if buf.length < 3 then (none, buf)
  else
    let sequence_str := String.join buf
    match common_phrases.find? (fun pp => sequence_matches_pattern sequence_str pp.2) with
    | some pp => (some pp.1, [])
    | none => (none, buf)

/-- `predict_sign` (lines 150-177) with the recognizer's environment made
explicit: `is_model_ready` (line 155), whether `preprocess_image_for_asl`
succeeded (line 161), the argmax class and its confidence from the model
(lines 166-167), and the value `simulate_prediction` would return (the
source draws it with `random.choice`; here it is a parameter).  The
`except` path (line 175-177) also returns the simulated value and is not
reachable from the pure branches modelled here. -/
def predict_sign (is_model_ready preprocess_ok : Bool) (predicted_class : Nat)
    (confidence : Rat) (sim : String) : Option String :=
  if !is_model_ready then some sim
  else if !preprocess_ok then none
  else if mkRat 7 10 < confidence then some (aslGet predicted_class)
  else none

/-- `recognize` (lines 232-261), buffer state threaded explicitly:
`features_present` is whether `extract_hand_features` found a hand.
Python's `if sign and sign != 'NOTHING'` requires the prediction to be
non-None, non-empty and different from NOTHING.  Returns (text result,
buffer after the call). -/
def recognize (features_present is_model_ready preprocess_ok : Bool)
    (predicted_class : Nat) (confidence : Rat) (sim : String)
    (buf : List String) : Option String × List String :=
  if features_present then
    match predict_sign is_model_ready preprocess_ok predicted_class confidence sim with
    | some sign =>
        if sign ≠ "" ∧ sign ≠ "NOTHING" then
          let buf := update_sequence_buffer buf sign
          match recognize_phrase buf with
          | (some phrase, buf) => (some phrase, buf)
          | (none, buf) => (some sign, buf)
        else (none, buf)
    | none => (none, buf)
  else (none, buf)

/-- One sign observation as driven by `recognize` (lines 246-255): push the
symbol through `update_sequence_buffer`, then `recognize_phrase`. -/
def observe (buf : List String) (sign : String) : Option String × List String :=
  recognize_phrase (update_sequence_buffer buf sign)

/-- Feed a list of symbols one per `observe` call, starting from buffer
`buf`; result is (emission of the last call, final buffer). -/
def observeAll (buf : List String) (signs : List String) : Option String × List String :=
  signs.foldl (fun acc s => observe acc.2 s) (none, buf)

/-! ## VoiceRecognizer (`voice_recognition.py`) -/

/-- The three transcription tiers tried by `transcribe` (lines 231-251). -/
inductive Tier where
  | google
  | vosk
  | placeholder
deriving DecidableEq, Repr

/-- Python truthiness of an `Optional[str]`: `None` and `""` are falsy. -/
def truthy : Option String → Bool
  | none => false
  | some s => !(s == "")

/-- `simulate_transcription`'s phrase table (lines 260-291), keyed by
language, in dict insertion order. -/
def voicePhrases : List (String × List String) :=
  [("en",
    ["Hello everyone, how are you doing?",
     "Thank you for joining the meeting",
     "Can you hear me clearly?",
     "Yes, I can hear you perfectly",
     "Let's discuss the project updates",
     "I agree with your proposal",
     "That sounds like a great idea",
     "Could you please repeat that?",
     "I'm having trouble with my connection",
     "The presentation looks good"]),
   ("ta",
    ["வணக்கம் அனைவருக்கும்",
     "கூட்டத்தில் சேர்ந்ததற்கு நன்றி",
     "நீங்கள் என்னை கேட்க முடிகிறதா?",
     "ஆம், நான் உங்களை தெளிவாக கேட்கிறேன்"]),
   ("ml",
    ["ഹലോ എല്ലാവർക്കും",
     "മീറ്റിംഗിൽ ചേർന്നതിന് നന്ദി",
     "നിങ്ങൾ എന്നെ കേൾക്കാൻ കഴിയുമോ?",
     "അതെ, ഞാൻ നിങ്ങളെ വ്യക്തമായി കേൾക്കുന്നു"]),
   ("te",
    ["హలో అందరికీ",
     "మీటింగ్‌లో చేరినందుకు ధన్యవాదాలు",
     "మీరు నన్ను వినగలరా?",
     "అవును, నేను మిమ్మల్ని స్పష్టంగా వింటున్నాను"])]

/-- `phrases.get(language, phrases["en"])` (line 293). -/
def phrasesFor (language : String) : List String :=
  ((voicePhrases.find? (fun p => p.1 == language)).map (fun p => p.2)).getD
    (((voicePhrases.find? (fun p => p.1 == "en")).map (fun p => p.2)).getD [])

/-- `simulate_transcription` (lines 253-294): `random.choice` picks a
uniformly random valid index of the selected phrase list; the draw is made
explicit as the parameter `i`, reduced modulo the list length. -/
def simulate_transcription (language : String) (i : Nat) : String :=
  let lp := phrasesFor language
  lp.getD (i % lp.length) ""

/-- `transcribe` (lines 231-251) with the two fallible backends made
explicit: `g` is the outcome of `transcribe_with_google` and `v` of
`transcribe_with_vosk` (`none` when the backend is unavailable, finds no
speech, or raises — both helpers catch their own exceptions and return
`None`, lines 185-187 and 227-229).  Returns the transcription together
with the list of tiers invoked, in invocation order. -/
def transcribe (g v : Option String) (language : String) (i : Nat) :
    Option String × List Tier :=
  let text := g
  let tiers := [Tier.google]
  let (text, tiers) :=
    if !truthy text then (v, tiers ++ [Tier.vosk]) else (text, tiers)
  let (text, tiers) :=
    if !truthy text then (some (simulate_transcription language i), tiers ++ [Tier.placeholder])
    else (text, tiers)
  (text, tiers)

/-! ## CaptionService (`caption_service.py`)

A caption is a Python dict whose `"metadata"` entry holds a *reference* to
a nested dict.  To capture Python reference semantics (needed for
`translate_caption`'s shallow `caption.copy()`), the nested metadata dicts
live in an explicit heap (`List Metadata`, indexed by position) and the
caption record stores the index. -/

/-- The nested `"metadata"` dict (lines 37-40, extended in 129-130).
`translated` and `original_language` are `none` while the key is absent. -/
structure Metadata where
  processing_time : Rat
  model_version : String
  translated : Option Bool
  original_language : Option String
deriving DecidableEq, Repr, Inhabited

/-- A caption record (lines 27-41).  `metadata` is a heap reference. -/
structure Caption where
  id : String
  text : String
  type : String
  user_id : String
  user_name : String
  user_photo : String
  language : String
  timestamp : String
  confidence : Rat
  metadata : Nat
deriving DecidableEq, Repr

/-- Dereference a metadata heap cell. -/
def heapGet (h : List Metadata) (r : Nat) : Metadata := h.getD r default

/-- Overwrite a metadata heap cell (in-place dict mutation). -/
def heapSet (h : List Metadata) (r : Nat) (m : Metadata) : List Metadata := h.set r m

/-- `self.max_history` (line 9). -/
def max_history : Nat := 100

/-- `add_to_history` (lines 52-64): append, then keep only the last
`max_history` captions (`lst[-100:]`). -/
def add_to_history (hist : List Caption) (c : Caption) : List Caption :=
  let h := hist ++ [c]
  if max_history < h.length then h.drop (h.length - max_history) else h

/-- `get_caption_history` (lines 66-75):
`self.caption_history[-limit:] if limit else self.caption_history`.
A Python `lst[-k:]` for `k > 0` is the last `min k (length lst)` elements;
`limit = 0` is falsy and returns the whole history. -/
def get_caption_history (hist : List Caption) (limit : Nat) : List Caption :=
  if limit ≠ 0 then hist.drop (hist.length - limit) else hist

/-- `simulate_translation`'s table (lines 145-172): the `"en"` entry maps a
target language to a phrase dictionary. -/
def translationsEn : List (String × List (String × String)) :=
  [("ta",
    [("Hello everyone", "வணக்கம் அனைவருக்கும்"), ("Thank you", "நன்றி"),
     ("Yes", "ஆம்"), ("No", "இல்லை"), ("Please", "தயவு செய்து"),
     ("Sorry", "மன்னிக்கவும்")]),
   ("ml",
    [("Hello everyone", "ഹലോ എല്ലാവർക്കും"), ("Thank you", "നന്ദി"),
     ("Yes", "അതെ"), ("No", "ഇല്ല"), ("Please", "ദയവായി"),
     ("Sorry", "ക്ഷമിക്കണം")]),
   ("te",
    [("Hello everyone", "హలో అందరికీ"), ("Thank you", "ధన్యవాదాలు"),
     ("Yes", "అవును"), ("No", "కాదు"), ("Please", "దయచేసి"),
     ("Sorry", "క్షమించండి")])]

/-- `simulate_translation` (lines 140-178): if the target language has a
table, translate via `table.get(text, text)`; otherwise return the text
unchanged. -/
def simulate_translation (text : String) (target_language : String) : String :=
  match translationsEn.find? (fun p => p.1 == target_language) with
  | some p => (((p.2.find? (fun q => q.1 == text))).map (fun q => q.2)).getD text
  | none => text

/-- `translate_caption` (lines 113-138).  `caption.copy()` (line 124) is a
*shallow* dict copy: the copy's `"metadata"` entry is the same reference as
the original's, so the two dict updates on lines 129-130 go through the
shared heap cell.  `fresh_id` stands for `str(uuid.uuid4())` and `now` for
`datetime.now().isoformat()`.  Returns (result, heap after the call). -/
def translate_caption (h : List Metadata) (caption : Caption)
    (target_language fresh_id now : String) : Option Caption × List Metadata :=
  let translated_text := simulate_translation caption.text target_language
  if translated_text ≠ "" then
    let translated_caption :=
      { caption with id := fresh_id, text := translated_text,
                     language := target_language, timestamp := now }
    let m := heapGet h caption.metadata
    let h := heapSet h caption.metadata
      { m with translated := some true, original_language := some caption.language }
    (some translated_caption, h)
  else (none, h)

/-! ## ConnectionManager (`main.py`, lines 51-86)

Peer channels (WebSocket objects) are identified by `Nat` handles; Python
object equality `!=` on them is handle equality.  `room_connections` is a
dict from room id to a Python list of peers, kept as an association list in
insertion order. -/

/-- Manager state (lines 52-54). -/
structure ManagerState where
  active_connections : List Nat
  room_connections : List (String × List Nat)
deriving DecidableEq, Repr

/-- Dict lookup `room_connections[room_id]`, defaulting to `[]`. -/
def roomGet (rooms : List (String × List Nat)) (rid : String) : List Nat :=
  ((rooms.find? (fun p => p.1 == rid)).map (fun p => p.2)).getD []

/-- Whether `room_id in room_connections`. -/
def roomMem (rooms : List (String × List Nat)) (rid : String) : Bool :=
  (rooms.find? (fun p => p.1 == rid)).isSome

/-- In-place replacement of the list bound to `rid` (no-op if absent). -/
def roomSet (rooms : List (String × List Nat)) (rid : String) (l : List Nat) :
    List (String × List Nat) :=
  rooms.map fun p => if p.1 == rid then (p.1, l) else p

/-- `connect` (lines 56-64): `websocket.accept()` is transport I/O with no
manager state, then the peer is appended to `active_connections` and,
after creating the room entry if absent, appended to the room's list —
unconditionally, with no duplicate check. -/
def connect (st : ManagerState) (ws : Nat) (room_id : String) : ManagerState :=
  let active := st.active_connections ++ [ws]
  let rooms :=
    if !roomMem st.room_connections room_id
    then st.room_connections ++ [(room_id, [])]
    else st.room_connections
  { active_connections := active,
    room_connections := roomSet rooms room_id (roomGet rooms room_id ++ [ws]) }

/-- Python `list.remove(y)`: delete the first element equal to `y`. -/
def removeFirst : List Nat → Nat → List Nat
  | [], _ => []
  | x :: xs, y => if x == y then xs else x :: removeFirst xs y

theorem removeFirst_length_le (l : List Nat) (y : Nat) :
    (removeFirst l y).length ≤ l.length := by
  induction l with
  | nil => simp [removeFirst]
  | cons x xs ih =>
    simp only [removeFirst]
    split
    · simp
    · simpa using Nat.succ_le_succ ih

/-- Whether the guard `connection != exclude_websocket` (line 81) blocks
the send: it does exactly when an excluded peer is given and equals `c`. -/
def isExcluded (c : Nat) (exclude : Option Nat) : Bool :=
  match exclude with
  | none => false
  | some e => c == e

/-- The `for connection in self.room_connections[room_id]` loop of
`broadcast_to_room` (lines 80-86) with CPython list-iterator semantics
made explicit: the iterator holds a cursor `i` into the *current* list;
`list.remove` inside the loop body shifts later elements left, so the
element that moves into position `i` is skipped when the cursor advances
to `i+1`.  `fails c` says whether `connection.send_text` raises for `c`.
The first `Nat` argument is structural fuel (see `broadcast_to_room`).
Returns (peers actually delivered to, in order; final room list). -/
def broadcastLoop (fails : Nat → Bool) (exclude : Option Nat) :
    Nat → List Nat → Nat → List Nat → List Nat × List Nat
  | 0, conns, _, delivered => (delivered, conns)
  | fuel + 1, conns, i, delivered =>
    if h : i < conns.length then
      let c := conns.get ⟨i, h⟩
      if isExcluded c exclude then
        broadcastLoop fails exclude fuel conns (i + 1) delivered
      else if fails c then
        broadcastLoop fails exclude fuel (removeFirst conns c) (i + 1) delivered
      else
        broadcastLoop fails exclude fuel conns (i + 1) (delivered ++ [c])
    else (delivered, conns)

/-- `broadcast_to_room` (lines 78-86): if the room exists, run the
delivery loop and store the (possibly self-healed) member list back.
The fuel `conns.length` always suffices: the cursor grows by one per step
and the list never grows, so after `conns.length` steps `i ≥` the current
length and the fuel-exhaustion case returns the same `(delivered, conns)`
as the cursor-past-the-end exit.  Returns (peers delivered to; room table
after the call). -/
def broadcast_to_room (rooms : List (String × List Nat)) (fails : Nat → Bool)
    (room_id : String) (exclude : Option Nat) :
    List Nat × List (String × List Nat) :=
  if roomMem rooms room_id then
    let conns := roomGet rooms room_id
    let r := broadcastLoop fails exclude conns.length conns 0 []
    (r.1, roomSet rooms room_id r.2)
  else ([], rooms)

/-! ## General lemmas -/

/-- The last `n` elements of a list (the whole list when it is shorter).
This is the semantics of Python's `lst[-n:]` for `n > 0`, and both bounded
buffers trim to this shape. -/
def lastN (n : Nat) (xs : List α) : List α := xs.drop (xs.length - n)

theorem lastN_length_le (n : Nat) (xs : List α) : (lastN n xs).length ≤ n := by
  simp only [lastN, List.length_drop]
  omega

theorem lastN_append (n : Nat) (ys zs : List α) :
    lastN n (lastN n ys ++ zs) = lastN n (ys ++ zs) := by
  unfold lastN
  rw [List.drop_append_eq_append_drop, List.drop_append_eq_append_drop, List.drop_drop]
  simp only [List.length_append, List.length_drop]
  congr 1
  · congr 1
    omega
  · congr 1
    omega

/-- Folding any trim-to-last-`n` insertion over a list from a short enough
start state keeps exactly the last `n` elements of everything seen. -/
theorem foldl_lastN (n : Nat) (f : List α → α → List α)
    (hf : ∀ xs x, f xs x = lastN n (xs ++ [x])) :
    ∀ (signs : List α) (buf : List α), buf.length ≤ n →
      List.foldl f buf signs = lastN n (buf ++ signs) := by
  intro signs
  induction signs with
  | nil =>
    intro buf hb
    simp [lastN, Nat.sub_eq_zero_of_le hb]
  | cons s ss ih =>
    intro buf hb
    rw [List.foldl_cons, hf, ih _ (lastN_length_le n (buf ++ [s])), lastN_append]
    simp

theorem update_sequence_buffer_eq_lastN (buf : List String) (s : String) :
    update_sequence_buffer buf s = lastN max_sequence_length (buf ++ [s]) := by
  unfold update_sequence_buffer lastN
  dsimp only
  split
  · rfl
  · next h =>
    rw [Nat.sub_eq_zero_of_le (by omega), List.drop_zero]

theorem add_to_history_eq_lastN (hist : List Caption) (c : Caption) :
    add_to_history hist c = lastN max_history (hist ++ [c]) := by
  unfold add_to_history lastN
  dsimp only
  split
  · rfl
  · next h =>
    rw [Nat.sub_eq_zero_of_le (by omega), List.drop_zero]

/-- The `str`-slice-versus-`list` comparison on line 227 can never succeed,
so no window ever matches any pattern. -/
theorem sequence_matches_pattern_false (s : String) (p : List String) :
    sequence_matches_pattern s p = false := by
  unfold sequence_matches_pattern
  split
  · rfl
  · simp [pyEq]

/-- Consequently `recognize_phrase` never emits a phrase and never clears
the buffer. -/
theorem recognize_phrase_no_match (buf : List String) :
    recognize_phrase buf = (none, buf) := by
  unfold recognize_phrase
  split
  · rfl
  · dsimp only
    rw [List.find?_eq_none.2 (fun pp _ => by simp [sequence_matches_pattern_false])]

theorem roomMem_false_roomGet (rooms : List (String × List Nat)) (rid : String)
    (h : roomMem rooms rid = false) : roomGet rooms rid = [] := by
  unfold roomMem at h
  unfold roomGet
  cases hf : List.find? (fun p => p.1 == rid) rooms with
  | none => rfl
  | some v =>
    rw [hf] at h
    simp at h

theorem roomGet_roomSet_self (rooms : List (String × List Nat)) (rid : String)
    (l : List Nat) (h : roomMem rooms rid = true) :
    roomGet (roomSet rooms rid l) rid = l := by
  induction rooms with
  | nil => simp [roomMem, List.find?] at h
  | cons p ps ih =>
    by_cases hp : p.1 == rid
    · simp [roomGet, roomSet, List.find?, hp]
    · have h2 : roomMem ps rid = true := by
        simpa [roomMem, List.find?, hp] using h
      have := ih h2
      simp only [roomGet, roomSet] at this ⊢
      simpa [List.find?, hp] using this

theorem roomMem_append_new (rooms : List (String × List Nat)) (rid : String)
    (h : roomMem rooms rid = false) :
    roomMem (rooms ++ [(rid, [])]) rid = true ∧
    roomGet (rooms ++ [(rid, [])]) rid = [] := by
  induction rooms with
  | nil => simp [roomMem, roomGet, List.find?]
  | cons p ps ih =>
    have hp : (p.1 == rid) = false := by
      by_contra hc
      simp only [Bool.not_eq_false] at hc
      simp [roomMem, List.find?, hc] at h
    have h2 : roomMem ps rid = false := by
      simpa [roomMem, List.find?, hp] using h
    have := ih h2
    simp only [roomMem, roomGet, List.cons_append, List.find?, hp] at this ⊢
    exact this

/-- Every per-language phrase list of `simulate_transcription`, and the
English fallback, is non-empty and contains only non-empty phrases. -/
theorem phrasesFor_spec (lang : String) :
    phrasesFor lang ≠ [] ∧ ∀ s ∈ phrasesFor lang, s ≠ "" := by
  by_cases h1 : lang = "en"
  · subst h1; decide
  by_cases h2 : lang = "ta"
  · subst h2; decide
  by_cases h3 : lang = "ml"
  · subst h3; decide
  by_cases h4 : lang = "te"
  · subst h4; decide
  have e1 : ("en" == lang) = false := by simp [Ne.symm h1]
  have e2 : ("ta" == lang) = false := by simp [Ne.symm h2]
  have e3 : ("ml" == lang) = false := by simp [Ne.symm h3]
  have e4 : ("te" == lang) = false := by simp [Ne.symm h4]
  simp only [phrasesFor, voicePhrases, List.find?, e1, e2, e3, e4]
  decide

theorem getD_mod_mem (xs : List String) (i : Nat) (hne : xs ≠ []) :
    xs.getD (i % xs.length) "" ∈ xs := by
  have hlen : 0 < xs.length := List.length_pos.2 hne
  have hlt : i % xs.length < xs.length := Nat.mod_lt _ hlen
  rw [List.getD_eq_getElem?_getD, List.getElem?_eq_getElem hlt]
  simp only [Option.getD_some]
  exact List.getElem_mem hlt

/-- The placeholder tier's output is a member of the fixed per-language
vocabulary and is never empty. -/
theorem simulate_transcription_spec (lang : String) (i : Nat) :
    simulate_transcription lang i ∈ phrasesFor lang ∧
    simulate_transcription lang i ≠ "" := by
  obtain ⟨hne, hall⟩ := phrasesFor_spec lang
  have hmem : simulate_transcription lang i ∈ phrasesFor lang := by
    unfold simulate_transcription
    exact getD_mod_mem _ i hne
  exact ⟨hmem, hall _ hmem⟩

/-- Example nested metadata dict, as built by `create_caption` line 37-40
(`processing_time = 0.5`, `model_version = "1.0.0"`). -/
def mdExample : Metadata :=
  { processing_time := mkRat 1 2, model_version := "1.0.0",
    translated := none, original_language := none }

/-- Example stored caption whose `metadata` entry references `mdExample`
(heap cell 0). -/
def capExample : Caption :=
  { id := "c1", text := "Yes", type := "voice", user_id := "u1",
    user_name := "User One", user_photo := "photo", language := "en",
    timestamp := "t0", confidence := mkRat 19 20, metadata := 0 }

/-- Example caption used to instantiate history witnesses. -/
def capOfNat (i : Nat) : Caption :=
  { id := toString i, text := "caption", type := "voice", user_id := "u",
    user_name := "User", user_photo := "photo", language := "en",
    timestamp := "t", confidence := mkRat 19 20, metadata := 0 }

/-! ## Claim theorems -/

/-- C1: the claim says feeding `[H,E,L,L,O]` into the matcher (dictionary
entry `HELLO -> [H,E,L,L,O]`) emits `Phrase("HELLO")` on the 5th
observation with an empty buffer afterwards.  The code cannot do this:
line 227 compares the `str` slice of the joined buffer with the `list`
pattern using `==`, which in Python is always `False` across those types,
so after the 5 observations the emission is `None` and the buffer still
holds all five symbols — and in general `recognize_phrase` never returns a
phrase and never clears the buffer. -/
theorem c1_phrase_never_emitted :
    observeAll [] ["H", "E", "L", "L", "O"] = (none, ["H", "E", "L", "L", "O"]) ∧
    ∀ buf : List String, recognize_phrase buf = (none, buf) :=
  ⟨by decide, recognize_phrase_no_match⟩

/-- C2: the claim says a send failure on one peer does not prevent
delivery to the remaining peers.  In the code, `list.remove` inside the
`for` loop shifts later elements onto the cursor position, so the peer
after a failed one is skipped.  Concretely for room `"r1" = [0, 1, 2]`
(A, B, C), excluding A = 0, with B = 1 failing: nobody receives the
message (in particular C = 2 does not), although B is indeed removed and C
remains a member. -/
theorem c2_broadcast_skips_peer_after_failure :
    (broadcast_to_room [("r1", [0, 1, 2])] (fun c => c == 1) "r1" (some 0)).1 = [] ∧
    (broadcast_to_room [("r1", [0, 1, 2])] (fun c => c == 1) "r1" (some 0)).2 =
      [("r1", [0, 2])] := by
  decide

/-- C3 counterexample: with the model ready and preprocessing succeeding,
a top prediction with confidence 1/2 — strictly below the 0.7 threshold —
makes `recognize` return `None` (absent), not some output from a later
tier, refuting the claim at this concrete input. -/
theorem c3_low_confidence_counterexample :
    mkRat 1 2 < mkRat 7 10 ∧
    recognize true true true 0 (mkRat 1 2) "HELLO" [] = (none, []) := by
  decide

/-- C3 (amended): whenever the model's top prediction has confidence not
above 0.7, `predict_sign` returns `None` and `recognize` returns absent
(`None`) with the buffer untouched; no later tier is consulted — the
simulated placeholder is reached only when the model is not ready or a
prediction exception occurs, not on low confidence. -/
theorem c3_low_confidence_is_absent :
    ∀ (pc : Nat) (conf : Rat) (sim : String) (buf : List String),
      conf ≤ mkRat 7 10 →
      predict_sign true true pc conf sim = none ∧
      recognize true true true pc conf sim buf = (none, buf) := by
  intro pc conf sim buf h
  have hn : ¬ (mkRat 7 10 < conf) := not_lt.2 h
  have hp : predict_sign true true pc conf sim = none := by
    simp [predict_sign, hn]
  exact ⟨hp, by simp [recognize, hp]⟩

/-- Witness for C3's amended theorem at confidence 1/2 with buffer
`["A"]`. -/
theorem c3_low_confidence_is_absent_witness :
    mkRat 1 2 ≤ mkRat 7 10 ∧
    (predict_sign true true 0 (mkRat 1 2) "X" = none ∧
     recognize true true true 0 (mkRat 1 2) "X" ["A"] = (none, ["A"])) :=
  ⟨by decide, c3_low_confidence_is_absent 0 (mkRat 1 2) "X" ["A"] (by decide)⟩

/-- C4: when Google's and Vosk's outcomes are both falsy (`None` from
unavailability, no speech, or an internally caught exception, or an empty
string), `transcribe` returns exactly the simulated placeholder phrase,
which belongs to the fixed per-language vocabulary and is non-empty, so
the result is never absent. -/
theorem c4_placeholder_always_succeeds :
    ∀ (g v : Option String) (lang : String) (i : Nat),
      truthy g = false → truthy v = false →
      (transcribe g v lang i).1 = some (simulate_transcription lang i) ∧
      simulate_transcription lang i ∈ phrasesFor lang ∧
      simulate_transcription lang i ≠ "" := by
  intro g v lang i hg hv
  refine ⟨?_, (simulate_transcription_spec lang i).1,
    (simulate_transcription_spec lang i).2⟩
  simp [transcribe, hg, hv]

/-- Witness for C4 with both backends returning falsy values, Tamil. -/
theorem c4_placeholder_always_succeeds_witness :
    truthy none = false ∧ truthy (some "") = false ∧
    ((transcribe none (some "") "ta" 2).1 = some (simulate_transcription "ta" 2) ∧
     simulate_transcription "ta" 2 ∈ phrasesFor "ta" ∧
     simulate_transcription "ta" 2 ≠ "") :=
  ⟨by decide, by decide,
   c4_placeholder_always_succeeds none (some "") "ta" 2 (by decide) (by decide)⟩

/-- C5: when the Google tier returns a truthy (non-`None`, non-empty)
transcription, `transcribe` returns exactly that text and the invocation
trace is `[google]`: the Vosk and placeholder tiers are never invoked. -/
theorem c5_google_short_circuit :
    ∀ (g v : Option String) (lang : String) (i : Nat), truthy g = true →
      transcribe g v lang i = (g, [Tier.google]) ∧
      Tier.vosk ∉ (transcribe g v lang i).2 ∧
      Tier.placeholder ∉ (transcribe g v lang i).2 := by
  intro g v lang i hg
  have ht : transcribe g v lang i = (g, [Tier.google]) := by
    simp [transcribe, hg]
  refine ⟨ht, ?_, ?_⟩ <;> rw [ht] <;> simp

/-- Witness for C5 with Google returning "hello". -/
theorem c5_google_short_circuit_witness :
    truthy (some "hello") = true ∧
    (transcribe (some "hello") (some "offline") "en" 0 = (some "hello", [Tier.google]) ∧
     Tier.vosk ∉ (transcribe (some "hello") (some "offline") "en" 0).2 ∧
     Tier.placeholder ∉ (transcribe (some "hello") (some "offline") "en" 0).2) :=
  ⟨by decide, c5_google_short_circuit (some "hello") (some "offline") "en" 0 (by decide)⟩

/-- C6: the claim says `translate_caption` leaves every field of the
original caption unchanged, including its nested metadata.  The code
produces the new caption correctly (fresh id, translated text, target
language), but `caption.copy()` is a shallow copy, so the two metadata
updates on lines 129-130 go through the dict shared with the original:
after the call, the original caption's metadata cell has gained
`translated = True` (and `original_language`), i.e. it was edited in
place. -/
theorem c6_translate_mutates_original_metadata :
    ((translate_caption [mdExample] capExample "ta" "c2" "t1").1).map Caption.id = some "c2" ∧
    ((translate_caption [mdExample] capExample "ta" "c2" "t1").1).map Caption.text = some "ஆம்" ∧
    ((translate_caption [mdExample] capExample "ta" "c2" "t1").1).map Caption.language = some "ta" ∧
    heapGet (translate_caption [mdExample] capExample "ta" "c2" "t1").2 capExample.metadata ≠ mdExample ∧
    (heapGet (translate_caption [mdExample] capExample "ta" "c2" "t1").2 capExample.metadata).translated = some true := by
  decide

/-- C7: every `update_sequence_buffer` call leaves at most 10 symbols in
the buffer, and observing more than 10 symbols with no intervening phrase
match leaves exactly the most recent 10 in FIFO (arrival) order. -/
theorem c7_buffer_bound :
    (∀ (buf : List String) (s : String),
      (update_sequence_buffer buf s).length ≤ 10) ∧
    ∀ signs : List String, 10 < signs.length →
      List.foldl update_sequence_buffer [] signs = signs.drop (signs.length - 10) ∧
      (List.foldl update_sequence_buffer [] signs).length = 10 := by
  have hfold : ∀ signs : List String,
      List.foldl update_sequence_buffer [] signs = lastN max_sequence_length signs := by
    intro signs
    have h := foldl_lastN max_sequence_length update_sequence_buffer
      update_sequence_buffer_eq_lastN signs [] (by simp)
    simpa using h
  constructor
  · intro buf s
    rw [update_sequence_buffer_eq_lastN]
    exact lastN_length_le _ _
  · intro signs h
    refine ⟨by rw [hfold]; rfl, ?_⟩
    rw [hfold]
    simp only [lastN, max_sequence_length, List.length_drop]
    omega

/-- Witness for C7 with 11 observed symbols. -/
theorem c7_buffer_bound_witness :
    10 < (["a", "b", "c", "d", "e", "f", "g", "h", "i", "j", "k"] : List String).length ∧
    (List.foldl update_sequence_buffer [] ["a", "b", "c", "d", "e", "f", "g", "h", "i", "j", "k"] =
      (["a", "b", "c", "d", "e", "f", "g", "h", "i", "j", "k"] : List String).drop
        ((["a", "b", "c", "d", "e", "f", "g", "h", "i", "j", "k"] : List String).length - 10) ∧
     (List.foldl update_sequence_buffer []
        ["a", "b", "c", "d", "e", "f", "g", "h", "i", "j", "k"]).length = 10) :=
  ⟨by decide, c7_buffer_bound.2 _ (by decide)⟩

/-- C8: every `add_to_history` call leaves at most 100 captions stored,
and inserting 105 captions into an empty store leaves exactly the most
recent 100 in insertion order, the oldest 5 dropped. -/
theorem c8_store_eviction :
    (∀ (hist : List Caption) (c : Caption), (add_to_history hist c).length ≤ 100) ∧
    ∀ caps : List Caption, caps.length = 105 →
      List.foldl add_to_history [] caps = caps.drop 5 ∧
      (List.foldl add_to_history [] caps).length = 100 := by
  have hfold : ∀ caps : List Caption,
      List.foldl add_to_history [] caps = lastN max_history caps := by
    intro caps
    have h := foldl_lastN max_history add_to_history
      add_to_history_eq_lastN caps [] (by simp)
    simpa using h
  constructor
  · intro hist c
    rw [add_to_history_eq_lastN]
    exact lastN_length_le _ _
  · intro caps hlen
    constructor
    · rw [hfold]
      show caps.drop (caps.length - max_history) = caps.drop 5
      rw [hlen]
      rfl
    · rw [hfold]
      simp only [lastN, max_history, List.length_drop]
      omega

/-- Witness for C8 with 105 concrete captions. -/
theorem c8_store_eviction_witness :
    ((List.range 105).map capOfNat).length = 105 ∧
    (List.foldl add_to_history [] ((List.range 105).map capOfNat) =
      ((List.range 105).map capOfNat).drop 5 ∧
     (List.foldl add_to_history [] ((List.range 105).map capOfNat)).length = 100) :=
  ⟨by simp, c8_store_eviction.2 _ (by simp)⟩

/-- C9 counterexample: joining peer 7 to room `"r1"` twice leaves the
membership `[7, 7]`, not the `[7]` it held after the first join — the
re-join is not a no-op, refuting the claimed idempotence. -/
theorem c9_rejoin_not_idempotent :
    roomGet (connect (connect ⟨[], []⟩ 7 "r1") 7 "r1").room_connections "r1" ≠
    roomGet (connect ⟨[], []⟩ 7 "r1").room_connections "r1" := by
  decide

/-- C9 (amended): `connect` has no duplicate-entry guard; every join,
including a re-join of the same peer to the same room, appends one more
entry to the room's membership list. -/
theorem c9_join_appends_unconditionally :
    ∀ (st : ManagerState) (ws : Nat) (rid : String),
      roomGet (connect st ws rid).room_connections rid =
      roomGet st.room_connections rid ++ [ws] := by
  intro st ws rid
  by_cases hm : roomMem st.room_connections rid = true
  · simp only [connect, hm, Bool.not_true, Bool.false_eq_true, if_false]
    rw [roomGet_roomSet_self _ _ _ hm]
  · have hm2 : roomMem st.room_connections rid = false := by
      simpa using hm
    obtain ⟨hmem2, hget2⟩ := roomMem_append_new _ _ hm2
    simp only [connect, hm2, Bool.not_false, if_true]
    rw [roomGet_roomSet_self _ _ _ hmem2, hget2,
      roomMem_false_roomGet _ _ hm2]

/-- C10: `get_caption_history` with the falsy limit 0 returns the whole
stored history, and with a positive limit `k` returns exactly the last
`min k size` captions in insertion order. -/
theorem c10_history_limit :
    (∀ hist : List Caption, get_caption_history hist 0 = hist) ∧
    ∀ (hist : List Caption) (k : Nat), 0 < k →
      get_caption_history hist k = hist.drop (hist.length - k) ∧
      (get_caption_history hist k).length = min k hist.length := by
  constructor
  · intro hist
    simp [get_caption_history]
  · intro hist k hk
    have hne : k ≠ 0 := by omega
    have h1 : get_caption_history hist k = hist.drop (hist.length - k) := by
      unfold get_caption_history
      rw [if_pos hne]
    refine ⟨h1, ?_⟩
    rw [h1, List.length_drop]
    omega

/-- Witness for C10 with limit 2 on a 3-caption history. -/
theorem c10_history_limit_witness :
    0 < 2 ∧
    (get_caption_history [capOfNat 0, capOfNat 1, capOfNat 2] 2 =
      [capOfNat 0, capOfNat 1, capOfNat 2].drop
        (([capOfNat 0, capOfNat 1, capOfNat 2] : List Caption).length - 2) ∧
     (get_caption_history [capOfNat 0, capOfNat 1, capOfNat 2] 2).length =
       min 2 ([capOfNat 0, capOfNat 1, capOfNat 2] : List Caption).length) :=
  ⟨by decide, c10_history_limit.2 [capOfNat 0, capOfNat 1, capOfNat 2] 2 (by decide)⟩
